import Mathlib

/-!
# Verification of the Oxide Flow pipeline engine

Shallow embedding of the parts of the Oxide Flow source that the
claims C1-C10 are about:

* `src/config_resolver.rs` - stage-output reference resolution;
* `src/pipeline.rs` - the pipeline executor with retries,
  continue-on-error and timing;
* `src/state/types.rs` - the persistent `PipelineState` and its mutators;
* `src/state/manager.rs` - the `StateManager` / `ObservableStateManager`;
* `src/state/pipeline_tracker.rs` - the `PipelineTracker` mutators;
* `src/state/backend.rs` - the file and memory backends (save / load /
  delete / locks / backups / validate / repair) and JSON serialization.

Machine integers (`u32`, `u64`, `usize`) are modelled as `Nat`: none of the
code paths involved come anywhere near overflow, and the source performs no
wrapping arithmetic on them.  Wall-clock instants (`DateTime<Utc>`,
`Instant`) are modelled as `Nat` milliseconds, passed explicitly wherever
the source calls `Utc::now()` / `Instant::now()`; `Instant::elapsed` is
modelled by explicit accounting of the durations of the awaited operations
(stage attempts and backoff sleeps) that happen in between.
-/

namespace OxideFlow

/-! ## JSON values (model of serde_json::Value)

Numbers are modelled as `Int` (the fields that flow through the claims are
integral; float payloads are irrelevant to every claim).  Objects are
association lists in insertion order; serde_json objects cannot contain
duplicate keys, and the model never constructs any. -/

inductive Json where
  | null
  | bool (b : Bool)
  | num (n : Int)
  | str (s : String)
  | arr (elems : List Json)
  | obj (fields : List (String × Json))
deriving Repr, Inhabited

/-- Model of `serde_json::Value::get` with a `&str` index (as used at
config_resolver.rs line 149: `current.get(field)`).  In serde_json a string
index only indexes **objects**; applied to an array (or any other variant)
it returns `None`.  This is the load-bearing fact for claim C6. -/
def Json.getKey (j : Json) (key : String) : Option Json :=
  match j with
  | .obj fields => fields.lookup key
  | _ => none

/-- JSON string escaping for the compact printer (quote and backslash; the
claims never stringify strings containing other escapes). -/
def escapeJson (s : String) : String :=
  s.foldl (fun acc c =>
    if c = '"' then acc ++ "\\\x22"
    else if c = '\\' then acc ++ "\\\\"
    else acc.push c) ""

mutual

/-- Model of `serde_json::Value::to_string` (compact printing), used by
`extract_field_from_output` for non-scalar leaves. -/
def Json.compact : Json → String
  | .null => "null"
  | .bool b => toString b
  | .num n => toString n
  | .str s => "\x22" ++ escapeJson s ++ "\x22"
  | .arr elems => "[" ++ String.intercalate "," (compactElems elems) ++ "]"
  | .obj fields => "\x7b" ++ String.intercalate "," (compactFields fields) ++ "\x7d"

/-- Compact printing of the elements of a JSON array. -/
def compactElems : List Json → List String
  | [] => []
  | j :: js => Json.compact j :: compactElems js

/-- Compact printing of the fields of a JSON object. -/
def compactFields : List (String × Json) → List String
  | [] => []
  | (k, v) :: fs =>
      ("\x22" ++ escapeJson k ++ "\x22:" ++ Json.compact v) :: compactFields fs

end

/-! ## The data payload (model of the `Data` variants used by the resolver)

`config_resolver.rs` matches the step output against the variants
`Json` / `Text` / the rest; binary payload bytes are irrelevant here. -/

inductive OxiData where
  | json (value : Json)
  | text (s : String)
  | binary
  | empty
deriving Repr, Inhabited

/-! ## ConfigResolver::extract_field_from_output
(src/config_resolver.rs lines 138-173) -/

/-- Splitting a character list at '.' separators; the empty input yields one
empty segment, exactly like Rust `str::split('.')`. -/
def splitDotChars : List Char → List String
  | [] => [""]
  | c :: cs =>
      match splitDotChars cs, decide (c = '.') with
      | rest, true => "" :: rest
      | r :: rs, false => String.mk (c :: r.toList) :: rs
      | [], false => [String.mk [c]]

/-- Model of Rust `field_path.split('.')`: `"a.b"` gives `["a", "b"]`,
`""` gives `[""]`, `"a..b"` gives `["a", "", "b"]`. -/
def splitDot (s : String) : List String :=
  splitDotChars s.toList

/-- The per-segment navigation loop of `extract_field_from_output`:
`for field in fields { current = current.get(field).ok_or(...)?; }`. -/
def navigateFields : Json → List String → Except String Json
  | j, [] => .ok j
  | j, f :: rest =>
      match j.getKey f with
      | some v => navigateFields v rest
      | none => .error ("Field '" ++ f ++ "' not found in JSON output")

/-- Final-value stringification of `extract_field_from_output`:
scalars to their text form, everything else compact JSON. -/
def jsonLeafToString (j : Json) : String :=
  match j with
  | .str s => s
  | .num n => toString n
  | .bool b => toString b
  | other => other.compact

/-- Model of `ConfigResolver::extract_field_from_output`.  The field path is
split on '.' (Rust `field_path.split('.')`), then navigated segment by
segment with `Value::get(&str)`. -/
def extract_field_from_output (output : OxiData) (field_path : String) :
    Except String String :=
  match output with
  | .json json_value =>
      match navigateFields json_value (splitDot field_path) with
      | .ok current => .ok (jsonLeafToString current)
      | .error e => .error e
  | .text _ =>
      .error "Field extraction from text data not supported. Use JSON output format."
  | _ => .error "Field extraction not supported for this data type"

/-! ## Pipeline executor (src/pipeline.rs)

`PipelineStep::execute_with_retries` (lines 237-313) and
`Pipeline::execute_with_retries` (lines 125-212).

A step's runtime behaviour is abstracted by two functions supplied with the
step: `rawExec n input` is the outcome `execute_once(input, resolver)` would
produce on the n-th attempt (0-based), and `rawDuration n` is the wall-clock
time in ms that call would take.  The `tokio::time::timeout` wrapper
(lines 253-262) converts an attempt that would exceed `timeout_seconds`
into the timeout error after exactly the timeout has elapsed. -/

structure StepResult where
  step_id : String
  success : Bool
  data : Option OxiData
  error : Option String
  retry_count : Nat
  duration_ms : Nat
deriving Repr, Inhabited

structure PipelineResult where
  success : Bool
  steps_executed : Nat
  steps_failed : Nat
  steps_skipped : Nat
  total_duration_ms : Nat
  step_results : List StepResult
  final_data : Option OxiData
deriving Repr, Inhabited

structure PipelineStepModel where
  id : String
  continue_on_error : Bool
  retry_attempts : Nat
  timeout_seconds : Option Nat
  rawExec : Nat → OxiData → Except String OxiData
  rawDuration : Nat → Nat

/-- Outcome of one attempt after the optional timeout wrapper
(pipeline.rs lines 253-266). -/
def attemptResult (s : PipelineStepModel) (n : Nat) (input : OxiData) :
    Except String OxiData :=
  match s.timeout_seconds with
  | some t =>
      if s.rawDuration n > 1000 * t then
        .error ("Step timed out after " ++ toString t ++ " seconds")
      else s.rawExec n input
  | none => s.rawExec n input

/-- Wall-clock time consumed by one attempt: the raw duration, capped by the
timeout when one is configured. -/
def attemptElapsed (s : PipelineStepModel) (n : Nat) : Nat :=
  match s.timeout_seconds with
  | some t => min (s.rawDuration n) (1000 * t)
  | none => s.rawDuration n

/-- The retry loop of `PipelineStep::execute_with_retries`
(pipeline.rs lines 245-310).  `attempt` is the 0-based attempt counter,
`remaining` the number of retries still allowed, `elapsed` the wall-clock ms
since `start_time` (line 242, captured once before the loop).  Returns the
`StepResult` together with the number of attempts actually performed.  Both
`return` sites compute `duration_ms` as `start_time.elapsed()` (lines 270
and 292), i.e. cumulatively from the start of the first attempt; the sleep
between attempts is `1000 * (attempt + 1)` ms (line 289). -/
def runAttempts (s : PipelineStepModel) (input : OxiData) :
    Nat → Nat → Nat → StepResult × Nat
  | attempt, remaining, elapsed =>
      let elapsed := elapsed + attemptElapsed s attempt
      match attemptResult s attempt input with
      | .ok data =>
          ({ step_id := s.id, success := true, data := some data, error := none,
             retry_count := attempt, duration_ms := elapsed }, attempt + 1)
      | .error e =>
          match remaining with
          | 0 =>
              ({ step_id := s.id, success := false, data := none, error := some e,
                 retry_count := attempt, duration_ms := elapsed }, attempt + 1)
          | remaining' + 1 =>
              runAttempts s input (attempt + 1) remaining'
                (elapsed + 1000 * (attempt + 1))

/-- Model of `PipelineStep::execute_with_retries`.  The second component is
the number of calls to `execute_once` (ghost observation). -/
def execute_with_retries (s : PipelineStepModel) (input : OxiData) :
    StepResult × Nat :=
  runAttempts s input 0 s.retry_attempts 0

/-- Result of a pipeline run together with two ghost observations read off
the source: the envelope passed to `step.execute_with_retries` for each step
that was started (pipeline.rs line 148), and the per-step attempt counts. -/
structure PipelineOutcome where
  result : PipelineResult
  inputs : List OxiData
  attemptCounts : List Nat

/-- Model of the step loop of `Pipeline::execute_with_retries`
(pipeline.rs lines 139-212).  On success the current envelope is replaced by
the step's output (lines 151-154); on failure with `continue_on_error` the
loop continues with the unchanged envelope (lines 159-161); otherwise the
loop returns early, counting the remaining steps as skipped (lines 162-179).
The returned counters are assembled exactly as in the source: the early
return reports the counts accumulated so far plus this failure, and the
normal exit recomputes `success = (steps_failed == 0)` and attaches
`final_data` iff successful (lines 203-211). -/
def execSteps : List PipelineStepModel → OxiData → PipelineOutcome
  | [], data =>
      { result := { success := true, steps_executed := 0, steps_failed := 0,
                    steps_skipped := 0, total_duration_ms := 0,
                    step_results := [], final_data := some data },
        inputs := [], attemptCounts := [] }
  | step :: rest, data =>
      let (sr, att) := execute_with_retries step data
      if sr.success then
        let newData := sr.data.getD data
        let inner := execSteps rest newData
        { result := { success := inner.result.steps_failed == 0,
                      steps_executed := inner.result.steps_executed + 1,
                      steps_failed := inner.result.steps_failed,
                      steps_skipped := inner.result.steps_skipped,
                      total_duration_ms := sr.duration_ms + inner.result.total_duration_ms,
                      step_results := sr :: inner.result.step_results,
                      final_data := if inner.result.steps_failed == 0 then
                        inner.result.final_data else none },
          inputs := data :: inner.inputs,
          attemptCounts := att :: inner.attemptCounts }
      else if step.continue_on_error then
        let inner := execSteps rest data
        { result := { success := false,
                      steps_executed := inner.result.steps_executed,
                      steps_failed := inner.result.steps_failed + 1,
                      steps_skipped := inner.result.steps_skipped,
                      total_duration_ms := sr.duration_ms + inner.result.total_duration_ms,
                      step_results := sr :: inner.result.step_results,
                      final_data := none },
          inputs := data :: inner.inputs,
          attemptCounts := att :: inner.attemptCounts }
      else
        { result := { success := false, steps_executed := 0, steps_failed := 1,
                      steps_skipped := rest.length,
                      total_duration_ms := sr.duration_ms,
                      step_results := [sr], final_data := none },
          inputs := [data], attemptCounts := [att] }

/-! ## Persistent pipeline state (src/state/types.rs)

All timestamps are `Nat` (ms since an arbitrary epoch).  `HashMap` fields
are association lists; `HashMap::insert` replaces an existing key in place
or appends a new one. -/

inductive PipelineStatus where
  | pending
  | running (started_at : Nat)
  | completed (completed_at : Nat)
  | failed (failed_at : Nat) (error : String)
  | paused (paused_at : Nat)
deriving Repr, DecidableEq, Inhabited

inductive StepStatus where
  | pending
  | running (started_at : Nat)
  | completed (completed_at : Nat)
  | failed (error : String) (failed_at : Nat)
  | skipped (reason : String)
deriving Repr, DecidableEq, Inhabited

inductive ErrorType where
  | configuration
  | network
  | processing
  | resource
  | unknown
deriving Repr, DecidableEq, Inhabited

structure ErrorRecord where
  error_id : String
  step_id : Option String
  error_type : ErrorType
  message : String
  context : String
  timestamp : Nat
  retryable : Bool
  stack_trace : Option String
deriving Repr, DecidableEq, Inhabited

structure StepState where
  step_id : String
  step_name : String
  status : StepStatus
  last_processed_id : String
  records_processed : Nat
  processing_time_ms : Nat
  worker_id : Option String
  last_heartbeat : Nat
  retry_count : Nat
  error_count : Nat
  config_hash : Option String
deriving Repr, DecidableEq, Inhabited

structure StateMetadata where
  created_at : Nat
  updated_at : Nat
  schema_version : String
  state_backend : String
  checkpoint_count : Nat
  last_checkpoint_at : Nat
  pipeline_name : Option String
  pipeline_version : Option String
  environment : Option String
  tags : List (String × String)
deriving Repr, DecidableEq, Inhabited

structure PipelineState where
  pipeline_id : String
  run_id : String
  version : Nat
  last_processed_id : String
  batch_number : Nat
  records_processed : Nat
  records_failed : Nat
  data_size_processed : Nat
  current_step : String
  step_states : List (String × StepState)
  status : PipelineStatus
  started_at : Nat
  last_success_timestamp : Nat
  estimated_completion : Option Nat
  errors : List ErrorRecord
  retry_count : Nat
  worker_id : Option String
  last_heartbeat : Nat
  metadata : StateMetadata
deriving Repr, DecidableEq, Inhabited

/-- `HashMap::insert`: replace the value at an existing key, else append. -/
def insertKey (l : List (String × α)) (k : String) (v : α) : List (String × α) :=
  match l with
  | [] => [(k, v)]
  | (k', v') :: rest =>
      if k' = k then (k, v) :: rest else (k', v') :: insertKey rest k v

/-- `HashMap::get_mut` followed by an in-place update: map the value at the
first matching key, leave the list unchanged when the key is absent. -/
def updateKey (l : List (String × α)) (k : String) (f : α → α) : List (String × α) :=
  match l with
  | [] => []
  | (k', v') :: rest =>
      if k' = k then (k', f v') :: rest else (k', v') :: updateKey rest k f

/-- `PipelineState::new` (types.rs lines 211-246). -/
def PipelineState.new (pipeline_id run_id : String) (now : Nat) : PipelineState :=
  { pipeline_id := pipeline_id, run_id := run_id, version := 1,
    last_processed_id := "", batch_number := 0, records_processed := 0,
    records_failed := 0, data_size_processed := 0, current_step := "",
    step_states := [], status := .pending, started_at := now,
    last_success_timestamp := now, estimated_completion := none, errors := [],
    retry_count := 0, worker_id := none, last_heartbeat := now,
    metadata := { created_at := now, updated_at := now,
                  schema_version := "1.0.0", state_backend := "file",
                  checkpoint_count := 0, last_checkpoint_at := now,
                  pipeline_name := none, pipeline_version := none,
                  environment := none, tags := [] } }

/-- `PipelineState::increment_version` (types.rs lines 249-252). -/
def PipelineState.increment_version (s : PipelineState) (now : Nat) : PipelineState :=
  { s with version := s.version + 1,
           metadata := { s.metadata with updated_at := now } }

/-- `PipelineState::add_error` (types.rs lines 255-258). -/
def PipelineState.add_error (s : PipelineState) (e : ErrorRecord) (now : Nat) :
    PipelineState :=
  ({ s with errors := s.errors ++ [e] }).increment_version now

/-- `PipelineState::update_heartbeat` (types.rs lines 261-264). -/
def PipelineState.update_heartbeat (s : PipelineState) (now : Nat) : PipelineState :=
  ({ s with last_heartbeat := now }).increment_version now

/-- The per-status checks of `PipelineState::validate`
(types.rs lines 307-333). -/
def statusValidationErrors (s : PipelineState) (now : Nat) : List String :=
  match s.status with
  | .running started_at =>
      (if started_at > now then
        ["Pipeline start time cannot be in the future"] else []) ++
      (if s.current_step = "" then
        ["Running pipeline must have a current step"] else [])
  | .completed completed_at =>
      (if completed_at < s.started_at then
        ["Completion time cannot be before start time"] else []) ++
      (if completed_at > now then
        ["Completion time cannot be in the future"] else [])
  | .failed failed_at _ =>
      (if failed_at < s.started_at then
        ["Failure time cannot be before start time"] else []) ++
      (if failed_at > now then
        ["Failure time cannot be in the future"] else [])
  | _ => []

/-- The per-step checks of `PipelineState::validate`
(types.rs lines 336-367); `HashMap` iteration is modelled in list order. -/
def stepValidationErrors (now : Nat) (kv : String × StepState) : List String :=
  let (step_id, step_state) := kv
  (if step_state.step_id ≠ step_id then
    ["Step ID mismatch: key '" ++ step_id ++ "' vs state '" ++
      step_state.step_id ++ "'"] else []) ++
  (match step_state.status with
   | .completed completed_at =>
       (if step_state.records_processed = 0 ∧ step_state.processing_time_ms = 0 then
         ["Completed step '" ++ step_id ++ "' should have processing metrics"]
        else []) ++
       (if completed_at > now then
         ["Step '" ++ step_id ++ "' completion time cannot be in the future"]
        else [])
   | .failed _ failed_at =>
       if failed_at > now then
         ["Step '" ++ step_id ++ "' failure time cannot be in the future"]
       else []
   | _ => [])

/-- The per-error checks of `PipelineState::validate`
(types.rs lines 386-395). -/
def errorValidationErrors (started_at : Nat) (idx : Nat) (e : ErrorRecord) :
    List String :=
  (if e.timestamp < started_at then
    ["Error " ++ toString idx ++ " timestamp cannot be before pipeline start"]
   else []) ++
  (if e.message = "" then
    ["Error " ++ toString idx ++ " message cannot be empty"] else [])

/-- `PipelineState::validate` (types.rs lines 290-402), returning the
collected error list (the source returns `Ok(())` iff it is empty). -/
def PipelineState.validationErrors (s : PipelineState) (now : Nat) : List String :=
  (if s.pipeline_id = "" then ["Pipeline ID cannot be empty"] else []) ++
  (if s.run_id = "" then ["Run ID cannot be empty"] else []) ++
  (if s.version = 0 then ["Version must be greater than 0"] else []) ++
  statusValidationErrors s now ++
  (s.step_states.flatMap (stepValidationErrors now)) ++
  (let step_records_total := (s.step_states.map (fun kv => kv.2.records_processed)).sum
   if step_records_total > 0 ∧ s.records_processed = 0 then
     ["Total records processed should reflect step totals"] else []) ++
  (if s.last_success_timestamp < s.started_at then
    ["Last success timestamp cannot be before start time"] else []) ++
  (if s.last_heartbeat < s.started_at then
    ["Last heartbeat cannot be before start time"] else []) ++
  ((s.errors.enum.map (fun ie => errorValidationErrors s.started_at ie.1 ie.2)).flatten)

/-- `state.validate().is_ok()`. -/
def PipelineState.validateOk (s : PipelineState) (now : Nat) : Bool :=
  s.validationErrors now = []

/-! ## StateManager mutators (src/state/manager.rs)

`update_state` / `update_state_locked` load the state, apply a closure, and
save the result; the closures below are the ones the manager convenience
methods pass (lines 185-244).  None of these functions touch `version`
except through `PipelineState::increment_version`. -/

/-- The closure of `StateManager::update_heartbeat` (manager.rs 185-190). -/
def managerUpdateHeartbeat (now : Nat) (s : PipelineState) : PipelineState :=
  s.update_heartbeat now

/-- The closure of `StateManager::add_error` (manager.rs 193-198). -/
def managerAddError (e : ErrorRecord) (now : Nat) (s : PipelineState) : PipelineState :=
  s.add_error e now

/-- The closure of `StateManager::update_step_state` (manager.rs 201-212). -/
def managerUpdateStepState (step_id : String) (step_state : StepState) (now : Nat)
    (s : PipelineState) : PipelineState :=
  ({ s with step_states := insertKey s.step_states step_id step_state
   }).increment_version now

/-- The closure of `StateManager::update_progress` (manager.rs 225-244). -/
def managerUpdateProgress (records data_size : Nat) (last_id : Option String)
    (now : Nat) (s : PipelineState) : PipelineState :=
  ({ s with records_processed := s.records_processed + records,
            data_size_processed := s.data_size_processed + data_size,
            last_processed_id := last_id.getD s.last_processed_id,
            last_success_timestamp := now }).increment_version now

/-! ## PipelineTracker mutators (src/state/pipeline_tracker.rs)

Each tracker operation runs `update_state_locked` with one of the closures
below and then saves; none of them increments `version`. -/

/-- `PipelineTracker::initialize_state` (pipeline_tracker.rs 48-87): the
state persisted at run start, with `version = 1`. -/
def trackerInitialState (pipeline_id run_id : String) (worker : String)
    (pipeline_version : Option String) (started_at now : Nat) : PipelineState :=
  { pipeline_id := pipeline_id, run_id := run_id, version := 1,
    last_processed_id := "", batch_number := 0, records_processed := 0,
    records_failed := 0, data_size_processed := 0, current_step := "",
    step_states := [], status := .running started_at, started_at := started_at,
    last_success_timestamp := started_at, estimated_completion := none,
    errors := [], retry_count := 0, worker_id := some worker,
    last_heartbeat := now,
    metadata := { created_at := now, updated_at := now,
                  schema_version := "1.0", state_backend := "file",
                  checkpoint_count := 0, last_checkpoint_at := now,
                  pipeline_name := some pipeline_id,
                  pipeline_version := pipeline_version,
                  environment := none, tags := [] } }

/-- The closure of `PipelineTracker::start_step` (pipeline_tracker.rs 90-117). -/
def trackerStartStep (step_id : String) (now : Nat) (s : PipelineState) :
    PipelineState :=
  let step_state : StepState :=
    { step_id := step_id, step_name := step_id, status := .running now,
      last_processed_id := "", records_processed := 0, processing_time_ms := 0,
      worker_id := s.worker_id, last_heartbeat := now, retry_count := 0,
      error_count := 0, config_hash := none }
  { s with current_step := step_id, last_heartbeat := now,
           metadata := { s.metadata with updated_at := now },
           step_states := insertKey s.step_states step_id step_state }

/-- The closure of `PipelineTracker::complete_step`
(pipeline_tracker.rs 120-176).  `fresh_error_id` stands for the
`Uuid::new_v4()` generated for the appended error record. -/
def trackerCompleteStep (sr : StepResult) (fresh_error_id : String) (now : Nat)
    (s : PipelineState) : PipelineState :=
  let s :=
    { s with step_states := updateKey s.step_states sr.step_id (fun ss =>
        { ss with
            status := if sr.success then .completed now
                      else .failed (sr.error.getD "Unknown error") now,
            processing_time_ms := sr.duration_ms,
            last_heartbeat := now,
            retry_count := sr.retry_count,
            error_count := if sr.success then ss.error_count else ss.error_count + 1 }) }
  let s :=
    if sr.success then
      { s with last_success_timestamp := now,
               records_processed := s.records_processed + 1 }
    else
      let s := { s with records_failed := s.records_failed + 1,
                        retry_count := s.retry_count + sr.retry_count }
      match sr.error with
      | some msg =>
          { s with errors := s.errors ++
              [{ error_id := fresh_error_id, step_id := some sr.step_id,
                 error_type := .processing, message := msg,
                 context := "Step failed after " ++ toString sr.retry_count ++
                   " retries",
                 timestamp := now, retryable := decide (sr.retry_count < 3),
                 stack_trace := none }] }
      | none => s
  { s with last_heartbeat := now, metadata := { s.metadata with updated_at := now } }

/-- The completion estimate of `PipelineTracker::create_checkpoint`
(pipeline_tracker.rs 189-199).  The source computes it in `f64` seconds and
truncates; the model uses the same integer arithmetic on whole seconds
(`DateTime::timestamp`), abstracting only the sub-integer float rounding,
which no claim depends on. -/
def checkpointEstimate (started_at now records : Nat) : Nat :=
  now + 1000 * (((now / 1000 - started_at / 1000) * 10) / records)

/-- The closure of `PipelineTracker::create_checkpoint`
(pipeline_tracker.rs 179-204); `data_size` is
`current_data.estimated_memory_usage()`. -/
def trackerCreateCheckpoint (data_size : Nat) (now : Nat) (s : PipelineState) :
    PipelineState :=
  let s :=
    { s with data_size_processed := s.data_size_processed + data_size,
             last_heartbeat := now,
             metadata := { s.metadata with
                           updated_at := now,
                           checkpoint_count := s.metadata.checkpoint_count + 1,
                           last_checkpoint_at := now } }
  if s.records_processed > 0 then
    let est := checkpointEstimate s.started_at now s.records_processed
    { s with estimated_completion := some est }
  else s

/-- The closure of `PipelineTracker::complete_pipeline`
(pipeline_tracker.rs 207-228). -/
def trackerCompletePipeline (result : PipelineResult) (now : Nat)
    (s : PipelineState) : PipelineState :=
  let s :=
    { s with status := if result.success then .completed now
               else .failed now ("Pipeline failed with " ++
                 toString result.steps_failed ++ " errors"),
             last_heartbeat := now,
             metadata := { s.metadata with updated_at := now } }
  if result.success then { s with last_success_timestamp := now } else s

/-- The closure of `PipelineTracker::send_heartbeat`
(pipeline_tracker.rs 231-239). -/
def trackerSendHeartbeat (now : Nat) (s : PipelineState) : PipelineState :=
  { s with last_heartbeat := now, metadata := { s.metadata with updated_at := now } }

/-! ## JSON serialization of PipelineState
(src/state/backend.rs lines 312-340, `FileBackend::serialize_state` /
`deserialize_state`, `SerializationFormat::Json`)

The serde-derived encoding is modelled at the JSON-document level:
`serde_json::to_vec_pretty` renders the document with whitespace that
`from_slice` discards again, so the byte rendering is transparent for the
round trip.  Structs become objects with fields in declaration order; enums
use serde's externally-tagged form (unit variants as strings, data variants
as single-key objects); `Option` becomes `null` or the value; `u64` becomes
a JSON number; timestamps are the `Nat` instants of the model, encoded
injectively as numbers (chrono's RFC 3339 rendering round-trips exactly). -/

def asStr : Json → Option String
  | .str s => some s
  | _ => none

/-- Decoding a `u64`: non-negative JSON integers only, as in serde_json. -/
def asNat : Json → Option Nat
  | .num (Int.ofNat n) => some n
  | _ => none

def asBool : Json → Option Bool
  | .bool b => some b
  | _ => none

def getField (j : Json) (key : String) : Option Json :=
  match j with
  | .obj fields => fields.lookup key
  | _ => none

def encodeOptStr : Option String → Json
  | none => .null
  | some s => .str s

def decodeOptStr : Json → Option (Option String)
  | .null => some none
  | .str s => some (some s)
  | _ => none

def encodeOptNat : Option Nat → Json
  | none => .null
  | some n => .num n

def decodeOptNat : Json → Option (Option Nat)
  | .null => some none
  | .num (Int.ofNat n) => some (some n)
  | _ => none

def encodeErrorType : ErrorType → Json
  | .configuration => .str "Configuration"
  | .network => .str "Network"
  | .processing => .str "Processing"
  | .resource => .str "Resource"
  | .unknown => .str "Unknown"

def decodeErrorType : Json → Option ErrorType
  | .str "Configuration" => some .configuration
  | .str "Network" => some .network
  | .str "Processing" => some .processing
  | .str "Resource" => some .resource
  | .str "Unknown" => some .unknown
  | _ => none

def encodePipelineStatus : PipelineStatus → Json
  | .pending => .str "Pending"
  | .running t => .obj [("Running", .obj [("started_at", .num t)])]
  | .completed t => .obj [("Completed", .obj [("completed_at", .num t)])]
  | .failed t e =>
      .obj [("Failed", .obj [("failed_at", .num t), ("error", .str e)])]
  | .paused t => .obj [("Paused", .obj [("paused_at", .num t)])]

def decodePipelineStatus : Json → Option PipelineStatus
  | .str "Pending" => some .pending
  | .obj [("Running", payload)] =>
      ((getField payload "started_at").bind asNat).map .running
  | .obj [("Completed", payload)] =>
      ((getField payload "completed_at").bind asNat).map .completed
  | .obj [("Failed", payload)] => do
      let t ← (getField payload "failed_at").bind asNat
      let e ← (getField payload "error").bind asStr
      pure (.failed t e)
  | .obj [("Paused", payload)] =>
      ((getField payload "paused_at").bind asNat).map .paused
  | _ => none

def encodeStepStatus : StepStatus → Json
  | .pending => .str "Pending"
  | .running t => .obj [("Running", .obj [("started_at", .num t)])]
  | .completed t => .obj [("Completed", .obj [("completed_at", .num t)])]
  | .failed e t =>
      .obj [("Failed", .obj [("error", .str e), ("failed_at", .num t)])]
  | .skipped r => .obj [("Skipped", .obj [("reason", .str r)])]

def decodeStepStatus : Json → Option StepStatus
  | .str "Pending" => some .pending
  | .obj [("Running", payload)] =>
      ((getField payload "started_at").bind asNat).map .running
  | .obj [("Completed", payload)] =>
      ((getField payload "completed_at").bind asNat).map .completed
  | .obj [("Failed", payload)] => do
      let e ← (getField payload "error").bind asStr
      let t ← (getField payload "failed_at").bind asNat
      pure (.failed e t)
  | .obj [("Skipped", payload)] =>
      ((getField payload "reason").bind asStr).map .skipped
  | _ => none

def encodeErrorRecord (e : ErrorRecord) : Json :=
  .obj [("error_id", .str e.error_id),
        ("step_id", encodeOptStr e.step_id),
        ("error_type", encodeErrorType e.error_type),
        ("message", .str e.message),
        ("context", .str e.context),
        ("timestamp", .num e.timestamp),
        ("retryable", .bool e.retryable),
        ("stack_trace", encodeOptStr e.stack_trace)]

def decodeErrorRecord (j : Json) : Option ErrorRecord := do
  let error_id ← (getField j "error_id").bind asStr
  let step_id ← (getField j "step_id").bind decodeOptStr
  let error_type ← (getField j "error_type").bind decodeErrorType
  let message ← (getField j "message").bind asStr
  let context ← (getField j "context").bind asStr
  let timestamp ← (getField j "timestamp").bind asNat
  let retryable ← (getField j "retryable").bind asBool
  let stack_trace ← (getField j "stack_trace").bind decodeOptStr
  pure { error_id := error_id, step_id := step_id, error_type := error_type,
         message := message, context := context, timestamp := timestamp,
         retryable := retryable, stack_trace := stack_trace }

def encodeStepState (s : StepState) : Json :=
  .obj [("step_id", .str s.step_id),
        ("step_name", .str s.step_name),
        ("status", encodeStepStatus s.status),
        ("last_processed_id", .str s.last_processed_id),
        ("records_processed", .num s.records_processed),
        ("processing_time_ms", .num s.processing_time_ms),
        ("worker_id", encodeOptStr s.worker_id),
        ("last_heartbeat", .num s.last_heartbeat),
        ("retry_count", .num s.retry_count),
        ("error_count", .num s.error_count),
        ("config_hash", encodeOptStr s.config_hash)]

def decodeStepState (j : Json) : Option StepState := do
  let step_id ← (getField j "step_id").bind asStr
  let step_name ← (getField j "step_name").bind asStr
  let status ← (getField j "status").bind decodeStepStatus
  let last_processed_id ← (getField j "last_processed_id").bind asStr
  let records_processed ← (getField j "records_processed").bind asNat
  let processing_time_ms ← (getField j "processing_time_ms").bind asNat
  let worker_id ← (getField j "worker_id").bind decodeOptStr
  let last_heartbeat ← (getField j "last_heartbeat").bind asNat
  let retry_count ← (getField j "retry_count").bind asNat
  let error_count ← (getField j "error_count").bind asNat
  let config_hash ← (getField j "config_hash").bind decodeOptStr
  pure { step_id := step_id, step_name := step_name, status := status,
         last_processed_id := last_processed_id,
         records_processed := records_processed,
         processing_time_ms := processing_time_ms, worker_id := worker_id,
         last_heartbeat := last_heartbeat, retry_count := retry_count,
         error_count := error_count, config_hash := config_hash }

def encodeStateMetadata (m : StateMetadata) : Json :=
  .obj [("created_at", .num m.created_at),
        ("updated_at", .num m.updated_at),
        ("schema_version", .str m.schema_version),
        ("state_backend", .str m.state_backend),
        ("checkpoint_count", .num m.checkpoint_count),
        ("last_checkpoint_at", .num m.last_checkpoint_at),
        ("pipeline_name", encodeOptStr m.pipeline_name),
        ("pipeline_version", encodeOptStr m.pipeline_version),
        ("environment", encodeOptStr m.environment),
        ("tags", .obj (m.tags.map (fun kv => (kv.1, .str kv.2))))]

/-- Decoding a JSON object into an association list value-wise. -/
def decodeAssoc (dec : Json → Option α) :
    List (String × Json) → Option (List (String × α))
  | [] => some []
  | (k, j) :: rest => do
      let v ← dec j
      let vs ← decodeAssoc dec rest
      pure ((k, v) :: vs)

def decodeTags : Json → Option (List (String × String))
  | .obj fields => decodeAssoc asStr fields
  | _ => none

def decodeStateMetadata (j : Json) : Option StateMetadata := do
  let created_at ← (getField j "created_at").bind asNat
  let updated_at ← (getField j "updated_at").bind asNat
  let schema_version ← (getField j "schema_version").bind asStr
  let state_backend ← (getField j "state_backend").bind asStr
  let checkpoint_count ← (getField j "checkpoint_count").bind asNat
  let last_checkpoint_at ← (getField j "last_checkpoint_at").bind asNat
  let pipeline_name ← (getField j "pipeline_name").bind decodeOptStr
  let pipeline_version ← (getField j "pipeline_version").bind decodeOptStr
  let environment ← (getField j "environment").bind decodeOptStr
  let tags ← (getField j "tags").bind decodeTags
  pure { created_at := created_at, updated_at := updated_at,
         schema_version := schema_version, state_backend := state_backend,
         checkpoint_count := checkpoint_count,
         last_checkpoint_at := last_checkpoint_at,
         pipeline_name := pipeline_name, pipeline_version := pipeline_version,
         environment := environment, tags := tags }

/-- Decoding a JSON array element-wise. -/
def decodeArr (dec : Json → Option α) : List Json → Option (List α)
  | [] => some []
  | j :: rest => do
      let v ← dec j
      let vs ← decodeArr dec rest
      pure (v :: vs)

def decodeErrors : Json → Option (List ErrorRecord)
  | .arr elems => decodeArr decodeErrorRecord elems
  | _ => none

def decodeStepStates : Json → Option (List (String × StepState))
  | .obj fields => decodeAssoc decodeStepState fields
  | _ => none

/-- `FileBackend::serialize_state` with `SerializationFormat::Json`, at the
document level. -/
def serialize_state (s : PipelineState) : Json :=
  .obj [("pipeline_id", .str s.pipeline_id),
        ("run_id", .str s.run_id),
        ("version", .num s.version),
        ("last_processed_id", .str s.last_processed_id),
        ("batch_number", .num s.batch_number),
        ("records_processed", .num s.records_processed),
        ("records_failed", .num s.records_failed),
        ("data_size_processed", .num s.data_size_processed),
        ("current_step", .str s.current_step),
        ("step_states", .obj (s.step_states.map
          (fun kv => (kv.1, encodeStepState kv.2)))),
        ("status", encodePipelineStatus s.status),
        ("started_at", .num s.started_at),
        ("last_success_timestamp", .num s.last_success_timestamp),
        ("estimated_completion", encodeOptNat s.estimated_completion),
        ("errors", .arr (s.errors.map encodeErrorRecord)),
        ("retry_count", .num s.retry_count),
        ("worker_id", encodeOptStr s.worker_id),
        ("last_heartbeat", .num s.last_heartbeat),
        ("metadata", encodeStateMetadata s.metadata)]

/-- The identity / progress fields of the state document (first half of the
deserializer, split only to keep elaboration tractable). -/
structure StateFieldsA where
  pipeline_id : String
  run_id : String
  version : Nat
  last_processed_id : String
  batch_number : Nat
  records_processed : Nat
  records_failed : Nat
  data_size_processed : Nat
  current_step : String
deriving Repr, DecidableEq

/-- The execution / metadata fields of the state document (second half of
the deserializer). -/
structure StateFieldsB where
  step_states : List (String × StepState)
  status : PipelineStatus
  started_at : Nat
  last_success_timestamp : Nat
  estimated_completion : Option Nat
  errors : List ErrorRecord
  retry_count : Nat
  worker_id : Option String
  last_heartbeat : Nat
  metadata : StateMetadata
deriving Repr, DecidableEq

def decodeStateFieldsA (j : Json) : Option StateFieldsA := do
  let pipeline_id ← (getField j "pipeline_id").bind asStr
  let run_id ← (getField j "run_id").bind asStr
  let version ← (getField j "version").bind asNat
  let last_processed_id ← (getField j "last_processed_id").bind asStr
  let batch_number ← (getField j "batch_number").bind asNat
  let records_processed ← (getField j "records_processed").bind asNat
  let records_failed ← (getField j "records_failed").bind asNat
  let data_size_processed ← (getField j "data_size_processed").bind asNat
  let current_step ← (getField j "current_step").bind asStr
  pure { pipeline_id := pipeline_id, run_id := run_id, version := version,
         last_processed_id := last_processed_id, batch_number := batch_number,
         records_processed := records_processed,
         records_failed := records_failed,
         data_size_processed := data_size_processed,
         current_step := current_step }

def decodeStateFieldsB (j : Json) : Option StateFieldsB := do
  let step_states ← (getField j "step_states").bind decodeStepStates
  let status ← (getField j "status").bind decodePipelineStatus
  let started_at ← (getField j "started_at").bind asNat
  let last_success_timestamp ← (getField j "last_success_timestamp").bind asNat
  let estimated_completion ← (getField j "estimated_completion").bind decodeOptNat
  let errors ← (getField j "errors").bind decodeErrors
  let retry_count ← (getField j "retry_count").bind asNat
  let worker_id ← (getField j "worker_id").bind decodeOptStr
  let last_heartbeat ← (getField j "last_heartbeat").bind asNat
  let metadata ← (getField j "metadata").bind decodeStateMetadata
  pure { step_states := step_states, status := status,
         started_at := started_at,
         last_success_timestamp := last_success_timestamp,
         estimated_completion := estimated_completion, errors := errors,
         retry_count := retry_count, worker_id := worker_id,
         last_heartbeat := last_heartbeat, metadata := metadata }

/-- `FileBackend::deserialize_state` with `SerializationFormat::Json`, at
the document level (`None` models the `SerializationError` case). -/
def deserialize_state (j : Json) : Option PipelineState := do
  let a ← decodeStateFieldsA j
  let b ← decodeStateFieldsB j
  pure { pipeline_id := a.pipeline_id, run_id := a.run_id,
         version := a.version, last_processed_id := a.last_processed_id,
         batch_number := a.batch_number,
         records_processed := a.records_processed,
         records_failed := a.records_failed,
         data_size_processed := a.data_size_processed,
         current_step := a.current_step, step_states := b.step_states,
         status := b.status, started_at := b.started_at,
         last_success_timestamp := b.last_success_timestamp,
         estimated_completion := b.estimated_completion, errors := b.errors,
         retry_count := b.retry_count, worker_id := b.worker_id,
         last_heartbeat := b.last_heartbeat, metadata := b.metadata }

/-! ### Round-trip lemmas -/

theorem decodeOptStr_encodeOptStr (o : Option String) :
    decodeOptStr (encodeOptStr o) = some o := by
  cases o <;> rfl

theorem decodeOptNat_encodeOptNat (o : Option Nat) :
    decodeOptNat (encodeOptNat o) = some o := by
  cases o <;> rfl

theorem decodeErrorType_encodeErrorType (t : ErrorType) :
    decodeErrorType (encodeErrorType t) = some t := by
  cases t <;> rfl

theorem decodePipelineStatus_encodePipelineStatus (st : PipelineStatus) :
    decodePipelineStatus (encodePipelineStatus st) = some st := by
  cases st <;>
    simp [decodePipelineStatus, encodePipelineStatus, getField, asNat, asStr,
      List.lookup]

theorem decodeStepStatus_encodeStepStatus (st : StepStatus) :
    decodeStepStatus (encodeStepStatus st) = some st := by
  cases st <;>
    simp [decodeStepStatus, encodeStepStatus, getField, asNat, asStr,
      List.lookup]

theorem decodeErrorRecord_encodeErrorRecord (e : ErrorRecord) :
    decodeErrorRecord (encodeErrorRecord e) = some e := by
  cases e
  simp [decodeErrorRecord, encodeErrorRecord, getField, asNat, asStr, asBool,
    List.lookup, decodeOptStr_encodeOptStr, decodeErrorType_encodeErrorType]

theorem decodeStepState_encodeStepState (s : StepState) :
    decodeStepState (encodeStepState s) = some s := by
  cases s
  simp [decodeStepState, encodeStepState, getField, asNat, asStr,
    List.lookup, decodeOptStr_encodeOptStr, decodeStepStatus_encodeStepStatus]

theorem decodeAssoc_map (dec : Json → Option α) (enc : α → Json)
    (h : ∀ x, dec (enc x) = some x) (l : List (String × α)) :
    decodeAssoc dec (l.map (fun kv => (kv.1, enc kv.2))) = some l := by
  induction l with
  | nil => rfl
  | cons kv rest ih =>
      cases kv
      simp [decodeAssoc, h, ih]

theorem decodeArr_map (dec : Json → Option α) (enc : α → Json)
    (h : ∀ x, dec (enc x) = some x) (l : List α) :
    decodeArr dec (l.map enc) = some l := by
  induction l with
  | nil => rfl
  | cons x rest ih => simp [decodeArr, h, ih]

theorem decodeStateMetadata_encodeStateMetadata (m : StateMetadata) :
    decodeStateMetadata (encodeStateMetadata m) = some m := by
  cases m
  simp [decodeStateMetadata, encodeStateMetadata, getField, asNat, asStr,
    List.lookup, decodeOptStr_encodeOptStr, decodeTags,
    decodeAssoc_map asStr Json.str (fun _ => rfl)]

theorem decodeStateFieldsA_serialize (s : PipelineState) :
    decodeStateFieldsA (serialize_state s) = some
      { pipeline_id := s.pipeline_id, run_id := s.run_id,
        version := s.version, last_processed_id := s.last_processed_id,
        batch_number := s.batch_number,
        records_processed := s.records_processed,
        records_failed := s.records_failed,
        data_size_processed := s.data_size_processed,
        current_step := s.current_step } := by
  simp [decodeStateFieldsA, serialize_state, getField, asNat, asStr,
    List.lookup]

theorem decodeStateFieldsB_serialize (s : PipelineState) :
    decodeStateFieldsB (serialize_state s) = some
      { step_states := s.step_states, status := s.status,
        started_at := s.started_at,
        last_success_timestamp := s.last_success_timestamp,
        estimated_completion := s.estimated_completion, errors := s.errors,
        retry_count := s.retry_count, worker_id := s.worker_id,
        last_heartbeat := s.last_heartbeat, metadata := s.metadata } := by
  simp [decodeStateFieldsB, serialize_state, getField, asNat, asStr,
    List.lookup, decodeOptStr_encodeOptStr, decodeOptNat_encodeOptNat,
    decodeStateMetadata_encodeStateMetadata,
    decodePipelineStatus_encodePipelineStatus, decodeStepStates, decodeErrors,
    decodeAssoc_map decodeStepState encodeStepState decodeStepState_encodeStepState,
    decodeArr_map decodeErrorRecord encodeErrorRecord decodeErrorRecord_encodeErrorRecord]

/-- Deserializing the serialization of any pipeline state gives the state
back, field for field. -/
theorem deserialize_serialize (s : PipelineState) :
    deserialize_state (serialize_state s) = some s := by
  simp [deserialize_state, decodeStateFieldsA_serialize,
    decodeStateFieldsB_serialize]

/-! ## State errors (src/state/types.rs lines 144-207, the variants the
modelled code paths raise) -/

inductive StateError where
  | pipelineNotFound (pipeline_id : String)
  | lockAlreadyHeld (worker_id : String)
  | lockTimeout (timeout_ms : Nat)
  | serializationError
  | ioError (details : String)
  | backupFailed (details : String)
  | backendError (details : String)
deriving Repr, DecidableEq, Inhabited

/-- Lock record (backend.rs lines 52-59). -/
structure LockInfo where
  pipeline_id : String
  worker_id : String
  locked_at : Nat
  expires_at : Option Nat
  lock_version : Nat
deriving Repr, DecidableEq, Inhabited

/-! ## File backend (src/state/backend.rs, FileBackend)

The directories under the base path are modelled as association lists keyed
by pipeline id.  A state file's bytes are abstracted by `FileData`: `good s`
is any byte string that deserializes to `s`, `empty` the zero-byte file,
`corrupt n` an `n`-byte string that fails to deserialize.  (A serialized
state is never empty, so `good` has a positive size; only zero versus
non-zero feeds the validation logic.)  A lock file's bytes are either a
JSON `LockInfo` or unparseable.  `Utc::now()` is the explicit `now`
argument, and each `Uuid::new_v4()` / generated backup id is an explicit
fresh-name argument. -/

inductive FileData where
  | empty
  | corrupt (size : Nat)
  | good (state : PipelineState)
deriving Repr, DecidableEq, Inhabited

/-- The size in bytes of the modelled file (`metadata.len()`). -/
def FileData.size : FileData → Nat
  | .empty => 0
  | .corrupt n => n
  | .good _ => 1

/-- Reading and deserializing the modelled file contents. -/
def FileData.deserialize : FileData → Option PipelineState
  | .good s => some s
  | _ => none

inductive LockFile where
  | corrupt
  | valid (info : LockInfo)
deriving Repr, DecidableEq, Inhabited

/-- One file in `backups/<pipeline_id>/`. -/
structure BackupFile where
  backup_id : String
  modified_at : Nat
  contents : FileData
deriving Repr, DecidableEq, Inhabited

structure FileBackendFS where
  states : List (String × FileData)
  locks : List (String × LockFile)
  backups : List (String × List BackupFile)
  cache : List (String × PipelineState)
deriving Repr, DecidableEq, Inhabited

/-- `fs::remove_file` within a modelled directory. -/
def eraseKey (l : List (String × α)) (k : String) : List (String × α) :=
  l.filter (fun kv => kv.1 ≠ k)

/-- `FileBackend::load_state` (backend.rs 512-547): cache first, then read
and deserialize, populating the cache (access counters and metrics are
reporting-only and not modelled). -/
def FileBackendFS.load_state (fs : FileBackendFS) (pid : String) :
    FileBackendFS × Except StateError PipelineState :=
  match fs.cache.lookup pid with
  | some cached => (fs, .ok cached)
  | none =>
      match fs.states.lookup pid with
      | none => (fs, .error (.pipelineNotFound pid))
      | some fd =>
          match fd.deserialize with
          | none => (fs, .error .serializationError)
          | some s => ({ fs with cache := insertKey fs.cache pid s }, .ok s)

/-- `FileBackend::save_state` (backend.rs 549-574): serialize, write the
state file (atomically replacing the previous contents), update the cache.
The persisted file is exactly the serialization of the given state; in
particular the `version` field is written unchanged. -/
def FileBackendFS.save_state (fs : FileBackendFS) (s : PipelineState) :
    FileBackendFS × Except StateError Unit :=
  ({ fs with states := insertKey fs.states s.pipeline_id (.good s),
             cache := insertKey fs.cache s.pipeline_id s }, .ok ())

/-- `FileBackend::delete_state` (backend.rs 576-593): remove the state file
if present, remove the lock file if present (no ownership check), and
invalidate the cache entry; always succeeds. -/
def FileBackendFS.delete_state (fs : FileBackendFS) (pid : String) :
    FileBackendFS × Except StateError Unit :=
  ({ fs with states := eraseKey fs.states pid,
             locks := eraseKey fs.locks pid,
             cache := eraseKey fs.cache pid }, .ok ())

/-- `FileBackend::is_locked` (backend.rs 699-731): missing file is
unlocked; an unreadable record or an expired lock (`now > expires_at`) is
removed and reported unlocked. -/
def FileBackendFS.is_locked (fs : FileBackendFS) (pid : String) (now : Nat) :
    FileBackendFS × Except StateError (Option LockInfo) :=
  match fs.locks.lookup pid with
  | none => (fs, .ok none)
  | some .corrupt => ({ fs with locks := eraseKey fs.locks pid }, .ok none)
  | some (.valid li) =>
      match li.expires_at with
      | some e =>
          if now > e then ({ fs with locks := eraseKey fs.locks pid }, .ok none)
          else (fs, .ok (some li))
      | none => (fs, .ok (some li))

/-- `FileBackend::release_lock` (backend.rs 677-697): missing lock file is a
no-op success; a record held by a different worker fails `LockAlreadyHeld`
with the holder's id and leaves the file in place; otherwise the file is
removed (`remove_file` on a file that `is_locked` already deleted surfaces
the io error through `?`). -/
def FileBackendFS.release_lock (fs : FileBackendFS) (pid wid : String)
    (now : Nat) : FileBackendFS × Except StateError Unit :=
  match fs.locks.lookup pid with
  | none => (fs, .ok ())
  | some _ =>
      let (fs1, r) := fs.is_locked pid now
      match r with
      | .error e => (fs1, .error e)
      | .ok (some li) =>
          if li.worker_id ≠ wid then (fs1, .error (.lockAlreadyHeld li.worker_id))
          else
            match fs1.locks.lookup pid with
            | some _ => ({ fs1 with locks := eraseKey fs1.locks pid }, .ok ())
            | none => (fs1, .error (.ioError "No such file or directory"))
      | .ok none =>
          match fs1.locks.lookup pid with
          | some _ => ({ fs1 with locks := eraseKey fs1.locks pid }, .ok ())
          | none => (fs1, .error (.ioError "No such file or directory"))

/-- `FileBackend::force_release_lock` (backend.rs 733-741). -/
def FileBackendFS.force_release_lock (fs : FileBackendFS) (pid : String) :
    FileBackendFS × Except StateError Unit :=
  ({ fs with locks := eraseKey fs.locks pid }, .ok ())

/-- `ValidationResult` (backend.rs 145-153); `last_modified` is reporting
metadata not tracked by the model. -/
structure ValidationResult where
  valid : Bool
  corruption_detected : Bool
  validation_errors : List String
  checksum_match : Bool
  file_size_bytes : Nat
deriving Repr, DecidableEq, Inhabited

/-- `FileBackend::validate_state` (backend.rs 862-924): a missing file is
`PipelineNotFound`; an undeserializable file sets `corruption_detected`; a
deserializable file is checked with `PipelineState::validate`; a zero-byte
file additionally records "State file is empty" and sets
`corruption_detected`. -/
def FileBackendFS.validate_state (fs : FileBackendFS) (pid : String)
    (now : Nat) : Except StateError ValidationResult :=
  match fs.states.lookup pid with
  | none => .error (.pipelineNotFound pid)
  | some fd =>
      let parsed :=
        match fd.deserialize with
        | some st =>
            (st.validationErrors now, false, decide (st.validationErrors now = []))
        | none => (["Deserialization failed: invalid state document"], true, false)
      let (errs, corruption, checksum) := parsed
      let errs := if fd.size = 0 then errs ++ ["State file is empty"] else errs
      let corruption := corruption || decide (fd.size = 0)
      .ok { valid := decide (errs = []) && !corruption,
            corruption_detected := corruption,
            validation_errors := errs,
            checksum_match := checksum,
            file_size_bytes := fd.size }

/-- `BackupResult` (backend.rs 176-183), reduced to the fields the repair
logic reads. -/
structure BackupResult where
  backup_id : String
  file_size_bytes : Nat
  created_at : Nat
deriving Repr, DecidableEq, Inhabited

/-- `FileBackend::backup_state` (backend.rs 926-970): copy the current
state file - whatever its contents - into the pipeline's backup directory
under a freshly generated `backup_<timestamp>` name. -/
def FileBackendFS.backup_state (fs : FileBackendFS) (pid : String) (now : Nat)
    (fresh_backup_id : String) : FileBackendFS × Except StateError BackupResult :=
  match fs.states.lookup pid with
  | none => (fs, .error (.pipelineNotFound pid))
  | some fd =>
      let dir := (fs.backups.lookup pid).getD []
      let entry : BackupFile :=
        { backup_id := fresh_backup_id, modified_at := now, contents := fd }
      ({ fs with backups := insertKey fs.backups pid (dir ++ [entry]) },
       .ok { backup_id := fresh_backup_id, file_size_bytes := fd.size,
             created_at := now })

/-- `BackupInfo` (backend.rs 156-164), reduced to the fields the repair
logic reads. -/
structure BackupInfo where
  backup_id : String
  created_at : Nat
  file_size_bytes : Nat
  state_version : Nat
deriving Repr, DecidableEq, Inhabited

/-- Rust `str::starts_with`, structurally over the character lists. -/
def charsLeadWith : List Char → List Char → Bool
  | [], _ => true
  | _ :: _, [] => false
  | p :: ps, c :: cs => p = c && charsLeadWith ps cs

/-- A string starts with the given pattern. -/
def strStartsWith (s pat : String) : Bool :=
  charsLeadWith pat.toList s.toList

/-- Stable insertion for the newest-first backup ordering. -/
def insertByTimeDesc (b : BackupInfo) : List BackupInfo → List BackupInfo
  | [] => [b]
  | c :: cs =>
      if c.created_at ≤ b.created_at then b :: c :: cs
      else c :: insertByTimeDesc b cs

/-- Stable sort, newest first (Rust `sort_by` with `b.cmp(a)` is stable). -/
def sortByTimeDesc : List BackupInfo → List BackupInfo
  | [] => []
  | b :: bs => insertByTimeDesc b (sortByTimeDesc bs)

/-- `FileBackend::list_backups` (backend.rs 1007-1051): enumerate the
pipeline's backup directory, keep files whose stem starts with "backup_",
read each file's state version (0 for a corrupted backup), and sort newest
first by modification time. -/
def FileBackendFS.list_backups (fs : FileBackendFS) (pid : String) :
    List BackupInfo :=
  let raw := ((fs.backups.lookup pid).getD []).filter
    (fun b => strStartsWith b.backup_id "backup_")
  let infos := raw.map (fun b =>
    { backup_id := b.backup_id, created_at := b.modified_at,
      file_size_bytes := b.contents.size,
      state_version := ((b.contents.deserialize).map
        PipelineState.version).getD 0 })
  sortByTimeDesc infos

/-- `FileBackend::restore_state` (backend.rs 972-1005): find the backup
file, check that it deserializes, take a best-effort defensive backup of
the current state file, then copy the backup over the state file.  (The
cache is not touched.) -/
def FileBackendFS.restore_state (fs : FileBackendFS) (pid backup_id : String)
    (now : Nat) (fresh_backup_id : String) :
    FileBackendFS × Except StateError Unit :=
  match ((fs.backups.lookup pid).getD []).find?
      (fun b => b.backup_id = backup_id) with
  | none => (fs, .error (.backupFailed ("Backup not found: " ++ backup_id)))
  | some entry =>
      match entry.contents.deserialize with
      | none => (fs, .error .serializationError)
      | some _ =>
          let fs :=
            match fs.states.lookup pid with
            | some _ => (fs.backup_state pid now fresh_backup_id).1
            | none => fs
          ({ fs with states := insertKey fs.states pid entry.contents }, .ok ())

/-- `RepairResult` (backend.rs 186-194). -/
structure RepairResult where
  success : Bool
  backup_created : Bool
  backup_id : Option String
  repairs_made : List String
  issues_found : List String
  manual_intervention_required : Bool
deriving Repr, DecidableEq, Inhabited

/-- The conservative fixes of `FileBackend::repair_state` for a parseable
state with validation errors (backend.rs 1113-1140). -/
def applyStateFixes (st : PipelineState) (pid : String) (now : Nat)
    (fresh_run_id : String) : PipelineState × List String :=
  let (st, r1) :=
    if st.pipeline_id = "" then
      ({ st with pipeline_id := pid }, ["Fixed empty pipeline_id"])
    else (st, [])
  let (st, r2) :=
    if st.run_id = "" then
      ({ st with run_id := "repaired_" ++ fresh_run_id }, ["Generated new run_id"])
    else (st, [])
  let (st, r3) :=
    if st.version = 0 then ({ st with version := 1 }, ["Fixed invalid version"])
    else (st, [])
  let (st, r4) :=
    if st.started_at > now then
      ({ st with started_at := now - 3600000 }, ["Fixed invalid start time"])
    else (st, [])
  let (st, r5) :=
    if st.last_heartbeat < st.started_at then
      ({ st with last_heartbeat := now }, ["Fixed invalid heartbeat time"])
    else (st, [])
  (st, r1 ++ r2 ++ r3 ++ r4 ++ r5)

/-- `FileBackend::repair_state` (backend.rs 1053-1165).  First a backup of
the current file is taken; a valid state returns early; on detected
corruption the newest entry of `list_backups` is restored; otherwise the
conservative fixes are applied and saved.  `success` is
`!manual_intervention_required && !repairs_made.is_empty()` (line 1155). -/
def FileBackendFS.repair_state (fs : FileBackendFS) (pid : String) (now : Nat)
    (fresh_backup_id fresh_restore_backup_id fresh_run_id : String) :
    FileBackendFS × Except StateError RepairResult :=
  let (fs, backupRes) := fs.backup_state pid now fresh_backup_id
  let backup_created := match backupRes with | .ok _ => true | .error _ => false
  let backup_id := match backupRes with
    | .ok r => some r.backup_id
    | .error _ => none
  let issues0 : List String := match backupRes with
    | .ok _ => []
    | .error _ => ["Could not create backup before repair"]
  match fs.validate_state pid now with
  | .error e => (fs, .error e)
  | .ok validation =>
      if validation.valid then
        (fs, .ok { success := true, backup_created := backup_created,
                   backup_id := backup_id,
                   repairs_made := ["No repairs needed - state is valid"],
                   issues_found := issues0,
                   manual_intervention_required := false })
      else
        let issues := issues0 ++ validation.validation_errors
        if validation.corruption_detected then
          match (fs.list_backups pid).head? with
          | some latest =>
              let (fs, restoreRes) :=
                fs.restore_state pid latest.backup_id now fresh_restore_backup_id
              match restoreRes with
              | .ok () =>
                  let repairs := ["Restored from backup: " ++ latest.backup_id]
                  (fs, .ok { success := repairs ≠ [],
                             backup_created := backup_created,
                             backup_id := backup_id, repairs_made := repairs,
                             issues_found := issues,
                             manual_intervention_required := false })
              | .error _ =>
                  (fs, .ok { success := false,
                             backup_created := backup_created,
                             backup_id := backup_id, repairs_made := [],
                             issues_found := issues ++
                               ["Failed to restore from backup"],
                             manual_intervention_required := true })
          | none =>
              (fs, .ok { success := false, backup_created := backup_created,
                         backup_id := backup_id, repairs_made := [],
                         issues_found := issues ++
                           ["No backups available for restoration"],
                         manual_intervention_required := true })
        else
          match fs.states.lookup pid with
          | some fd =>
              match fd.deserialize with
              | some st =>
                  let (st, repairs) := applyStateFixes st pid now fresh_run_id
                  let (fs, _) := fs.save_state st
                  (fs, .ok { success := repairs ≠ [],
                             backup_created := backup_created,
                             backup_id := backup_id, repairs_made := repairs,
                             issues_found := issues,
                             manual_intervention_required := false })
              | none =>
                  (fs, .ok { success := false,
                             backup_created := backup_created,
                             backup_id := backup_id, repairs_made := [],
                             issues_found := issues,
                             manual_intervention_required := true })
          | none =>
              (fs, .ok { success := false, backup_created := backup_created,
                         backup_id := backup_id, repairs_made := [],
                         issues_found := issues,
                         manual_intervention_required := true })

/-! ## Memory backend (src/state/backend.rs, MemoryBackend, lines 1421-1566) -/

structure MemoryBackend where
  states : List (String × PipelineState)
  locks : List (String × LockInfo)
deriving Repr, DecidableEq, Inhabited

/-- `MemoryBackend::save_state` (backend.rs 1456-1460): insert the state as
given - `version` is stored unchanged. -/
def MemoryBackend.save_state (b : MemoryBackend) (s : PipelineState) :
    MemoryBackend × Except StateError Unit :=
  ({ b with states := insertKey b.states s.pipeline_id s }, .ok ())

/-- `MemoryBackend::load_state` (backend.rs 1445-1454). -/
def MemoryBackend.load_state (b : MemoryBackend) (pid : String) :
    Except StateError PipelineState :=
  match b.states.lookup pid with
  | some s => .ok s
  | none => .error (.pipelineNotFound pid)

/-- `MemoryBackend::delete_state` (backend.rs 1462-1470): remove both the
state entry and the lock entry; always succeeds. -/
def MemoryBackend.delete_state (b : MemoryBackend) (pid : String) :
    MemoryBackend × Except StateError Unit :=
  ({ b with states := eraseKey b.states pid, locks := eraseKey b.locks pid },
   .ok ())

/-- `MemoryBackend::release_lock` (backend.rs 1529-1542): a lock entry held
by a different worker fails `LockAlreadyHeld` with the holder's id and is
left in place; otherwise the entry (if any) is removed. -/
def MemoryBackend.release_lock (b : MemoryBackend) (pid wid : String) :
    MemoryBackend × Except StateError Unit :=
  match b.locks.lookup pid with
  | some li =>
      if li.worker_id ≠ wid then (b, .error (.lockAlreadyHeld li.worker_id))
      else ({ b with locks := eraseKey b.locks pid }, .ok ())
  | none => ({ b with locks := eraseKey b.locks pid }, .ok ())

/-! ## Observable state manager (src/state/manager.rs lines 416-473)

The observable façade is modelled by the trace of backend operations and
observer notifications it emits, in program order.  `writeOk` abstracts the
outcome of the manager's (retried) `save_state`, `loadOk` the outcome of
the load inside `update_state`. -/

inductive ObsEvent where
  | backendLoad (pipeline_id : String) (ok : Bool)
  | backendWrite (pipeline_id : String) (ok : Bool)
  | notifyStateChange (observer : Nat)
  | notifyError (observer : Nat)
deriving Repr, DecidableEq, Inhabited

/-- `ObservableStateManager::save_state_observed` (manager.rs 441-457):
save first; on success notify every observer, on failure return before any
notification. -/
def saveStateObservedTrace (numObservers : Nat) (pid : String)
    (writeOk : Bool) : List ObsEvent :=
  if writeOk then
    .backendWrite pid true :: (List.range numObservers).map .notifyStateChange
  else [.backendWrite pid false]

/-- `ObservableStateManager::add_error_observed` (manager.rs 460-472):
notify every observer first, then run `StateManager::add_error`
(load-mutate-save). -/
def addErrorObservedTrace (numObservers : Nat) (pid : String)
    (loadOk writeOk : Bool) : List ObsEvent :=
  ((List.range numObservers).map .notifyError) ++
    (.backendLoad pid loadOk ::
      (if loadOk then [.backendWrite pid writeOk] else []))

/-- Checks that every observer notification in the trace is preceded by a
successful backend write; `seenWrite` carries whether one happened yet. -/
def checkNotifyAfterWrite : List ObsEvent → Bool → Bool
  | [], _ => true
  | e :: rest, seenWrite =>
      match e with
      | .notifyStateChange _ => seenWrite && checkNotifyAfterWrite rest seenWrite
      | .notifyError _ => seenWrite && checkNotifyAfterWrite rest seenWrite
      | .backendWrite _ ok => checkNotifyAfterWrite rest (seenWrite || ok)
      | .backendLoad _ _ => checkNotifyAfterWrite rest seenWrite

/-- Observers are invoked only after a successful backend write. -/
def notifiedOnlyAfterWrite (tr : List ObsEvent) : Bool :=
  checkNotifyAfterWrite tr false

/-! ## Association-list lemmas -/

theorem lookup_insertKey_self (l : List (String × α)) (k : String) (v : α) :
    (insertKey l k v).lookup k = some v := by
  induction l with
  | nil => simp [insertKey, List.lookup]
  | cons kv rest ih =>
      obtain ⟨k', v'⟩ := kv
      by_cases h : k' = k
      · simp [insertKey, h, List.lookup]
      · have hne : (k == k') = false := beq_eq_false_iff_ne.mpr (Ne.symm h)
        simp [insertKey, h, List.lookup, hne, ih]

theorem lookup_eraseKey_self (l : List (String × α)) (k : String) :
    (eraseKey l k).lookup k = none := by
  induction l with
  | nil => rfl
  | cons kv rest ih =>
      obtain ⟨k', v'⟩ := kv
      by_cases h : k' = k
      · simpa [eraseKey, h] using ih
      · have hne : (k == k') = false := beq_eq_false_iff_ne.mpr (Ne.symm h)
        simpa [eraseKey, h, List.lookup, hne] using ih

theorem lookup_eraseKey_ne (l : List (String × α)) (r k : String) (h : k ≠ r) :
    (eraseKey l r).lookup k = l.lookup k := by
  induction l with
  | nil => rfl
  | cons kv rest ih =>
      obtain ⟨k', v'⟩ := kv
      by_cases hk : k' = r
      · subst hk
        have hne : (k == k') = false := beq_eq_false_iff_ne.mpr h
        simpa [eraseKey, List.lookup, hne] using ih
      · cases hkk : (k == k') with
        | true => simp [eraseKey, hk, List.lookup, hkk]
        | false => simpa [eraseKey, hk, List.lookup, hkk] using ih

/-! ## Claim theorems -/

/-- Claim C6, counterexample.  The claim asserts that a numeric segment of a
stage-output reference performs array lookup by index, so that navigating
the recorded output `["x"]` with path "0" yields "x".  In the code,
`serde_json::Value::get(&str)` only indexes objects, so the extraction
fails with a field-not-found error instead. -/
theorem extract_numeric_array_segment_fails :
    extract_field_from_output (.json (.arr [.str "x"])) "0" =
        .error "Field '0' not found in JSON output" ∧
      extract_field_from_output (.json (.arr [.str "x"])) "0" ≠ .ok "x" := by
  refine ⟨rfl, fun h => ?_⟩
  rw [show extract_field_from_output (.json (.arr [.str "x"])) "0" =
        .error "Field '0' not found in JSON output" from rfl] at h
  exact Except.noConfusion h

/-- Claim C6, amended.  Resolution of a stage-output reference splits the
path on '.', navigates the recorded output tree segment by segment, and
stringifies the leaf; every segment - identifier or numeric - performs an
object (map) lookup by its literal text, and any segment applied to a JSON
array (or other non-object) fails with a field-not-found error rather than
indexing the array. -/
theorem extract_field_navigation_object_lookup :
    (∀ (fields : List (String × Json)) (seg : String) (v : Json)
       (rest : List String), fields.lookup seg = some v →
       navigateFields (.obj fields) (seg :: rest) = navigateFields v rest) ∧
    (∀ (elems : List Json) (seg : String) (rest : List String),
       navigateFields (.arr elems) (seg :: rest) =
         .error ("Field '" ++ seg ++ "' not found in JSON output")) ∧
    (∀ (j : Json) (path : String),
       extract_field_from_output (.json j) path =
         (navigateFields j (splitDot path)).map jsonLeafToString) := by
  refine ⟨fun fields seg v rest h => ?_, fun elems seg rest => rfl,
    fun j path => ?_⟩
  · simp [navigateFields, Json.getKey, h]
  · cases h : navigateFields j (splitDot path) <;>
      simp [extract_field_from_output, h, Except.map]

/-- Witness for the amended C6 theorem at concrete inputs. -/
theorem extract_field_navigation_object_lookup_witness :
    navigateFields (.obj [("size", .num 1024)]) ["size"] =
        navigateFields (.num 1024) [] ∧
      extract_field_from_output (.json (.obj [("size", .num 1024)])) "size" =
        (navigateFields (.obj [("size", .num 1024)]) (splitDot "size")).map
          jsonLeafToString :=
  ⟨extract_field_navigation_object_lookup.1 [("size", .num 1024)] "size"
      (.num 1024) [] rfl,
    extract_field_navigation_object_lookup.2.2 (.obj [("size", .num 1024)])
      "size"⟩

/-- Claim C8.  For the backend's JSON serialization format, deserialize
composed with serialize is the identity on every `PipelineState` that
satisfies `validate()`: every field of the decoded state equals the
original. -/
theorem serialize_roundtrip_on_valid (s : PipelineState) (now : Nat)
    (h : s.validateOk now = true) :
    deserialize_state (serialize_state s) = some s :=
  deserialize_serialize s

/-- Witness for C8: a concrete state that passes `validate()` and round
trips. -/
theorem serialize_roundtrip_on_valid_witness :
    (PipelineState.new "p" "r" 0).validateOk 0 = true ∧
      deserialize_state (serialize_state (PipelineState.new "p" "r" 0)) =
        some (PipelineState.new "p" "r" 0) :=
  ⟨by decide, serialize_roundtrip_on_valid (PipelineState.new "p" "r" 0) 0
    (by decide)⟩

/-- Claim C10.  `delete_state` on the file backend removes the state file,
the lock file (whoever holds it) and the cache entry for the pipeline,
touches nothing belonging to other pipelines, and succeeds even when
neither file exists; the memory backend likewise removes both the state
entry and the lock entry. -/
theorem delete_state_removes_state_lock_cache (fs : FileBackendFS)
    (b : MemoryBackend) (pid : String) :
    ((fs.delete_state pid).2 = .ok () ∧
     (fs.delete_state pid).1.states.lookup pid = none ∧
     (fs.delete_state pid).1.locks.lookup pid = none ∧
     (fs.delete_state pid).1.cache.lookup pid = none ∧
     (∀ q, q ≠ pid →
       (fs.delete_state pid).1.states.lookup q = fs.states.lookup q ∧
       (fs.delete_state pid).1.locks.lookup q = fs.locks.lookup q ∧
       (fs.delete_state pid).1.cache.lookup q = fs.cache.lookup q) ∧
     (fs.delete_state pid).1.backups = fs.backups) ∧
    ((b.delete_state pid).2 = .ok () ∧
     (b.delete_state pid).1.states.lookup pid = none ∧
     (b.delete_state pid).1.locks.lookup pid = none) := by
  exact ⟨⟨rfl, lookup_eraseKey_self fs.states pid,
      lookup_eraseKey_self fs.locks pid, lookup_eraseKey_self fs.cache pid,
      fun q hq => ⟨lookup_eraseKey_ne fs.states pid q hq,
        lookup_eraseKey_ne fs.locks pid q hq,
        lookup_eraseKey_ne fs.cache pid q hq⟩, rfl⟩,
    rfl, lookup_eraseKey_self b.states pid, lookup_eraseKey_self b.locks pid⟩

/-- Witness for C10 at a concrete filesystem holding a foreign lock. -/
theorem delete_state_removes_state_lock_cache_witness :
    (({ states := [("p1", FileData.empty)],
        locks := [("p1", LockFile.corrupt)], backups := [],
        cache := [] } : FileBackendFS).delete_state "p1").1.states.lookup
        "p1" = none ∧
      (({ states := [("p1", FileData.empty)],
          locks := [("p1", LockFile.corrupt)], backups := [],
          cache := [] } : FileBackendFS).delete_state "p1").1.locks.lookup
        "p2" = none :=
  ⟨(delete_state_removes_state_lock_cache _ ⟨[], []⟩ "p1").1.2.1,
    ((delete_state_removes_state_lock_cache _ ⟨[], []⟩ "p1").1.2.2.2.2.1 "p2"
      (by decide)).2.1⟩

/-- Claim C7.  While a lock record for worker W is in place and not
expired, `release_lock` by any other worker fails `LockAlreadyHeld` naming
W and leaves the backend - lock included - unchanged; with no lock record,
`release_lock` is a no-op success.  The memory backend enforces the same
ownership check. -/
theorem release_lock_ownership (fs : FileBackendFS) (b : MemoryBackend)
    (pid wid : String) (now : Nat) :
    (∀ li : LockInfo, fs.locks.lookup pid = some (.valid li) →
       (∀ e, li.expires_at = some e → now ≤ e) → li.worker_id ≠ wid →
       (fs.release_lock pid wid now).2 = .error (.lockAlreadyHeld li.worker_id) ∧
       (fs.release_lock pid wid now).1 = fs) ∧
    (fs.locks.lookup pid = none →
       (fs.release_lock pid wid now).2 = .ok () ∧
       (fs.release_lock pid wid now).1 = fs) ∧
    (∀ li : LockInfo, b.locks.lookup pid = some li → li.worker_id ≠ wid →
       (b.release_lock pid wid).2 = .error (.lockAlreadyHeld li.worker_id) ∧
       (b.release_lock pid wid).1 = b) := by
  refine ⟨fun li hl hexp hw => ?_, fun hl => ?_, fun li hl hw => ?_⟩
  · have hnotexp : ∀ e, li.expires_at = some e → ¬ now > e := by
      intro e he
      exact not_lt_of_ge (hexp e he)
    cases hee : li.expires_at with
    | none =>
        constructor <;>
          simp [FileBackendFS.release_lock, FileBackendFS.is_locked, hl, hee, hw]
    | some e =>
        have := hnotexp e hee
        constructor <;>
          simp [FileBackendFS.release_lock, FileBackendFS.is_locked, hl, hee,
            this, hw]
  · constructor <;> simp [FileBackendFS.release_lock, hl]
  · constructor <;> simp [MemoryBackend.release_lock, hl, hw]

/-- The live lock record of the C7 witness. -/
def c7_lock : LockInfo :=
  { pipeline_id := "p1", worker_id := "w1", locked_at := 0,
    expires_at := some 100, lock_version := 1 }

/-- A file backend holding w1's live lock on "p1". -/
def c7_fs : FileBackendFS :=
  { states := [], locks := [("p1", .valid c7_lock)], backups := [],
    cache := [] }

/-- An empty file backend (no lock file). -/
def c7_fs_empty : FileBackendFS :=
  { states := [], locks := [], backups := [], cache := [] }

/-- A memory backend holding w1's lock on "p1". -/
def c7_mem : MemoryBackend := { states := [], locks := [("p1", c7_lock)] }

/-- Witness for C7: worker w2 cannot release w1's live lock; releasing with
no lock record succeeds. -/
theorem release_lock_ownership_witness :
    (c7_fs.release_lock "p1" "w2" 50).2 = .error (.lockAlreadyHeld "w1") ∧
      (c7_fs_empty.release_lock "p1" "w2" 50).2 = .ok () ∧
      (c7_mem.release_lock "p1" "w2").2 = .error (.lockAlreadyHeld "w1") := by
  refine ⟨((release_lock_ownership c7_fs c7_mem "p1" "w2" 50).1 c7_lock rfl
      ?_ (by decide)).1,
    ((release_lock_ownership c7_fs_empty c7_mem "p1" "w2" 50).2.1 rfl).1,
    ((release_lock_ownership c7_fs_empty c7_mem "p1" "w2" 50).2.2 c7_lock rfl
      (by decide)).1⟩
  intro e he
  cases he
  decide

/-- Claim C9, counterexample.  The claim asserts that observers are invoked
only after the corresponding backend write has succeeded; but
`add_error_observed` notifies its observer before `add_error` performs the
load and write, so the trace with one observer violates the property. -/
theorem add_error_notifies_before_write :
    notifiedOnlyAfterWrite (addErrorObservedTrace 1 "p1" true true) = false ∧
      addErrorObservedTrace 1 "p1" true true =
        [.notifyError 0, .backendLoad "p1" true, .backendWrite "p1" true] := by
  constructor <;> rfl

/-- In `save_state_observed` every notification follows the successful
write. -/
theorem checkNotify_allStateChange (l : List Nat) :
    checkNotifyAfterWrite (l.map .notifyStateChange) true = true := by
  induction l with
  | nil => rfl
  | cons x rest ih => simpa [checkNotifyAfterWrite] using ih

/-- Claim C9, amended.  `save_state_observed` notifies `on_state_change`
observers only after the backend write has succeeded, but
`add_error_observed` invokes `on_error` observers before the error is
persisted: with at least one observer its trace starts with a notification
and violates the only-after-write property. -/
theorem observer_notification_order :
    (∀ (n : Nat) (pid : String) (writeOk : Bool),
       notifiedOnlyAfterWrite (saveStateObservedTrace n pid writeOk) = true) ∧
    (∀ (n : Nat) (pid : String) (loadOk writeOk : Bool), 0 < n →
       (addErrorObservedTrace n pid loadOk writeOk).head? =
           some (.notifyError 0) ∧
         notifiedOnlyAfterWrite (addErrorObservedTrace n pid loadOk writeOk) =
           false) := by
  constructor
  · intro n pid writeOk
    cases writeOk with
    | false => rfl
    | true =>
        simpa [saveStateObservedTrace, notifiedOnlyAfterWrite,
          checkNotifyAfterWrite] using checkNotify_allStateChange (List.range n)
  · intro n pid loadOk writeOk hn
    obtain ⟨m, rfl⟩ : ∃ m, n = m + 1 := ⟨n - 1, by omega⟩
    constructor <;>
      simp [addErrorObservedTrace, List.range_succ_eq_map,
        notifiedOnlyAfterWrite, checkNotifyAfterWrite]

/-- Witness for the amended C9 theorem at one observer. -/
theorem observer_notification_order_witness :
    notifiedOnlyAfterWrite (saveStateObservedTrace 1 "p1" true) = true ∧
      notifiedOnlyAfterWrite (addErrorObservedTrace 1 "p1" true true) = false :=
  ⟨observer_notification_order.1 1 "p1" true,
    (observer_notification_order.2 1 "p1" true true (by decide)).2⟩

/-- The concrete run-start state of the C1 counterexample (the state the
tracker persists at initialization). -/
def c1_state0 : PipelineState := trackerInitialState "p1" "r1" "w1" none 0 0

/-- The state the tracker's `send_heartbeat` saves next. -/
def c1_state1 : PipelineState := trackerSendHeartbeat 5 c1_state0

/-- Claim C1, counterexample.  Two successive successful saves for pipeline
"p1" - the tracker's initial save and the save performed by
`send_heartbeat` - persist version 1 both times: the persisted version does
not strictly increase. -/
theorem heartbeat_save_version_not_increasing :
    ((((⟨[], []⟩ : MemoryBackend).save_state c1_state0).1.save_state
        c1_state1).1.states.lookup "p1" = some c1_state1) ∧
      c1_state0.version = 1 ∧ c1_state1.version = 1 ∧
      ¬ c1_state1.version > c1_state0.version := by
  refine ⟨?_, rfl, rfl, by decide⟩
  decide

/-- Claim C1, amended.  `save_state` persists the given state unchanged (in
particular its `version`), the state-manager convenience mutators
(`update_heartbeat`, `add_error`, `update_step_state`, `update_progress`)
increment the version by exactly one per save, but every tracker mutation
(`send_heartbeat`, `start_step`, `complete_step`, `create_checkpoint`,
`complete_pipeline`) saves with the version unchanged, so across those
saves the persisted version is merely non-decreasing, not strictly
increasing. -/
theorem version_change_by_mutator (s : PipelineState) (now : Nat) :
    (∀ step_id, (trackerStartStep step_id now s).version = s.version) ∧
    (∀ sr fid, (trackerCompleteStep sr fid now s).version = s.version) ∧
    (∀ sz, (trackerCreateCheckpoint sz now s).version = s.version) ∧
    (∀ pr, (trackerCompletePipeline pr now s).version = s.version) ∧
    (trackerSendHeartbeat now s).version = s.version ∧
    (managerUpdateHeartbeat now s).version = s.version + 1 ∧
    (∀ e, (managerAddError e now s).version = s.version + 1) ∧
    (∀ sid ss, (managerUpdateStepState sid ss now s).version = s.version + 1) ∧
    (∀ r d lid, (managerUpdateProgress r d lid now s).version = s.version + 1) ∧
    (∀ b : MemoryBackend, (b.save_state s).1.states.lookup s.pipeline_id = some s) := by
  refine ⟨fun step_id => rfl, fun sr fid => ?_, fun sz => ?_, fun pr => ?_,
    rfl, rfl, fun e => rfl, fun sid ss => rfl, fun r d lid => rfl,
    fun b => ?_⟩
  · cases hs : sr.success <;> cases he : sr.error <;>
      simp [trackerCompleteStep, hs, he]
  · cases hr : decide (s.records_processed > 0) <;>
      simp [trackerCreateCheckpoint, of_decide_eq_true, of_decide_eq_false, hr]
  · cases hp : pr.success <;> simp [trackerCompletePipeline, hp]
  · exact lookup_insertKey_self b.states s.pipeline_id s

/-! ## Executor lemmas (claims C3, C4, C5) -/

/-- Total wall-clock time of attempts `a .. a + r` of a step. -/
def sumElapsed (s : PipelineStepModel) : Nat → Nat → Nat
  | a, 0 => attemptElapsed s a
  | a, r + 1 => attemptElapsed s a + sumElapsed s (a + 1) r

/-- Total backoff sleep between attempts `a .. a + r`
(`1000 * (attempt + 1)` ms after each failed attempt). -/
def sumSleeps : Nat → Nat → Nat
  | _, 0 => 0
  | a, r + 1 => 1000 * (a + 1) + sumSleeps (a + 1) r

/-- When every attempt fails, the retry loop performs all `remaining + 1`
attempts and reports cumulative timing from `start_time`. -/
theorem runAttempts_allFail (s : PipelineStepModel) (input : OxiData)
    (hf : ∀ n, ∃ msg, attemptResult s n input = .error msg) :
    ∀ (r a el : Nat),
      (runAttempts s input a r el).1.step_id = s.id ∧
      (runAttempts s input a r el).1.success = false ∧
      (runAttempts s input a r el).1.data = none ∧
      (runAttempts s input a r el).1.retry_count = a + r ∧
      (runAttempts s input a r el).1.duration_ms =
        el + sumElapsed s a r + sumSleeps a r ∧
      (runAttempts s input a r el).2 = a + r + 1 := by
  intro r
  induction r with
  | zero =>
      intro a el
      obtain ⟨msg, hm⟩ := hf a
      simp [runAttempts, hm, sumElapsed, sumSleeps]
  | succ r ih =>
      intro a el
      obtain ⟨msg, hm⟩ := hf a
      have hstep : runAttempts s input a (r + 1) el =
          runAttempts s input (a + 1) r
            (el + attemptElapsed s a + 1000 * (a + 1)) := by
        conv_lhs => rw [runAttempts]
        simp [hm]
      obtain ⟨h1, h2, h3, h4, h5, h6⟩ :=
        ih (a + 1) (el + attemptElapsed s a + 1000 * (a + 1))
      rw [hstep]
      refine ⟨h1, h2, h3, by omega, ?_, by omega⟩
      simp only [sumElapsed, sumSleeps]
      omega

/-- When the first successful attempt is attempt `a + j` (all earlier ones
failing), the loop stops there and reports cumulative timing from
`start_time`. -/
theorem runAttempts_firstSuccess (s : PipelineStepModel) (input : OxiData) :
    ∀ (j a r el : Nat) (v : OxiData),
      (∀ i, i < j → ∃ msg, attemptResult s (a + i) input = .error msg) →
      attemptResult s (a + j) input = .ok v →
      j ≤ r →
      (runAttempts s input a r el).1.success = true ∧
      (runAttempts s input a r el).1.data = some v ∧
      (runAttempts s input a r el).1.retry_count = a + j ∧
      (runAttempts s input a r el).1.duration_ms =
        el + sumElapsed s a j + sumSleeps a j ∧
      (runAttempts s input a r el).2 = a + j + 1 := by
  intro j
  induction j with
  | zero =>
      intro a r el v hlt hok hjr
      rw [Nat.add_zero] at hok
      simp [runAttempts, hok, sumElapsed, sumSleeps]
  | succ j ih =>
      intro a r el v hlt hok hjr
      obtain ⟨msg, hm⟩ := hlt 0 (Nat.succ_pos j)
      rw [Nat.add_zero] at hm
      obtain ⟨r', rfl⟩ : ∃ r', r = r' + 1 := ⟨r - 1, by omega⟩
      have hstep : runAttempts s input a (r' + 1) el =
          runAttempts s input (a + 1) r'
            (el + attemptElapsed s a + 1000 * (a + 1)) := by
        conv_lhs => rw [runAttempts]
        simp [hm]
      have hlt' : ∀ i, i < j → ∃ msg,
          attemptResult s (a + 1 + i) input = .error msg := by
        intro i hi
        have := hlt (i + 1) (by omega)
        rwa [show a + (i + 1) = a + 1 + i by omega] at this
      have hok' : attemptResult s (a + 1 + j) input = .ok v := by
        rwa [show a + (j + 1) = a + 1 + j by omega] at hok
      obtain ⟨h1, h2, h3, h4, h5⟩ :=
        ih (a + 1) r' (el + attemptElapsed s a + 1000 * (a + 1)) v hlt' hok'
          (by omega)
      rw [hstep]
      refine ⟨h1, h2, by omega, ?_, by omega⟩
      simp only [sumElapsed, sumSleeps]
      omega

/-- Claim C3.  A single-step declaration with `retry_attempts = R` whose
stage fails on every attempt: the executor performs exactly `R + 1`
attempts, and the pipeline result has `steps_executed = 0`,
`steps_failed = 1`, `step_results[0].retry_count = R`, `success = false`,
and no final envelope. -/
theorem retry_accounting (s : PipelineStepModel) (d : OxiData) (R : Nat)
    (hR : s.retry_attempts = R)
    (hf : ∀ n input, ∃ msg, attemptResult s n input = .error msg) :
    (execSteps [s] d).result.steps_executed = 0 ∧
    (execSteps [s] d).result.steps_failed = 1 ∧
    (execSteps [s] d).result.success = false ∧
    (execSteps [s] d).result.final_data = none ∧
    (execSteps [s] d).result.steps_skipped = 0 ∧
    (execSteps [s] d).attemptCounts = [R + 1] ∧
    ((execSteps [s] d).result.step_results.map StepResult.retry_count) = [R] ∧
    ((execSteps [s] d).result.step_results.map StepResult.success) = [false] := by
  obtain ⟨hsid, hsucc, hdata, hretry, hdur, hcount⟩ :=
    runAttempts_allFail s d (fun n => hf n d) s.retry_attempts 0 0
  cases hE : execute_with_retries s d with
  | mk sr att =>
      rw [show runAttempts s d 0 s.retry_attempts 0 =
        execute_with_retries s d from rfl, hE] at hsucc hretry hcount
      simp only at hsucc hretry hcount
      by_cases hc : s.continue_on_error <;>
        simp [execSteps, hE, hsucc, hc, hcount, hretry, hR]

/-- The single always-failing step of the C3 witness
(spec scenario 4: `retry_attempts = 2`). -/
def c3_step : PipelineStepModel :=
  { id := "failing", continue_on_error := false, retry_attempts := 2,
    timeout_seconds := none, rawExec := fun _ _ => .error "x",
    rawDuration := fun _ => 1 }

/-- Witness for C3 at the concrete scenario-4 declaration. -/
theorem retry_accounting_witness :
    (execSteps [c3_step] OxiData.empty).result.steps_executed = 0 ∧
      (execSteps [c3_step] OxiData.empty).result.steps_failed = 1 ∧
      (execSteps [c3_step] OxiData.empty).result.success = false ∧
      (execSteps [c3_step] OxiData.empty).result.final_data = none ∧
      (execSteps [c3_step] OxiData.empty).result.steps_skipped = 0 ∧
      (execSteps [c3_step] OxiData.empty).attemptCounts = [3] ∧
      ((execSteps [c3_step] OxiData.empty).result.step_results.map
        StepResult.retry_count) = [2] ∧
      ((execSteps [c3_step] OxiData.empty).result.step_results.map
        StepResult.success) = [false] :=
  retry_accounting c3_step OxiData.empty 2 rfl (fun _ _ => ⟨"x", rfl⟩)

/-- The always-failing two-attempt step of the C5 counterexample: the first
attempt takes 5 ms, the second 7 ms, with a 1000 ms backoff sleep in
between. -/
def c5_step : PipelineStepModel :=
  { id := "s", continue_on_error := false, retry_attempts := 1,
    timeout_seconds := none, rawExec := fun _ _ => .error "x",
    rawDuration := fun n => if n = 0 then 5 else 7 }

/-- Claim C5, counterexample.  The claim asserts `duration_ms` measures the
final attempt only, from that attempt's own start - here 7 ms.  The code
captures `start_time` once before the retry loop and reports
`start_time.elapsed()` at the final return, so the recorded duration is
5 + 1000 + 7 = 1012 ms. -/
theorem duration_not_final_attempt_only :
    attemptElapsed c5_step 1 = 7 ∧
      ((execute_with_retries c5_step OxiData.empty).1).duration_ms = 1012 ∧
      ((execute_with_retries c5_step OxiData.empty).1).duration_ms ≠
        attemptElapsed c5_step 1 := by
  refine ⟨rfl, rfl, by decide⟩

/-- Claim C5, amended.  `duration_ms` in a `StepResult` measures the
cumulative elapsed time from the start of the *first* attempt - the wall
clock of every attempt plus every backoff sleep in between - both when all
attempts fail and when attempt `j` is the first success. -/
theorem duration_cumulative_from_first_attempt (s : PipelineStepModel)
    (input : OxiData) :
    ((∀ n, ∃ msg, attemptResult s n input = .error msg) →
       ((execute_with_retries s input).1).duration_ms =
         sumElapsed s 0 s.retry_attempts + sumSleeps 0 s.retry_attempts) ∧
    (∀ (j : Nat) (v : OxiData),
       (∀ i, i < j → ∃ msg, attemptResult s i input = .error msg) →
       attemptResult s j input = .ok v → j ≤ s.retry_attempts →
       ((execute_with_retries s input).1).duration_ms =
         sumElapsed s 0 j + sumSleeps 0 j) := by
  constructor
  · intro hf
    have h := (runAttempts_allFail s input hf s.retry_attempts 0 0).2.2.2.2.1
    simpa [execute_with_retries] using h
  · intro j v hlt hok hjr
    have h := (runAttempts_firstSuccess s input j 0 s.retry_attempts 0 v
      (by simpa using hlt) (by simpa using hok) hjr).2.2.2.1
    simpa [execute_with_retries] using h

/-- Witness for the amended C5 theorem: the two-attempt failing run records
5 + 1000 + 7 ms, and a first-attempt success records its own 5 ms. -/
theorem duration_cumulative_from_first_attempt_witness :
    ((execute_with_retries c5_step OxiData.empty).1).duration_ms =
        sumElapsed c5_step 0 c5_step.retry_attempts +
          sumSleeps 0 c5_step.retry_attempts ∧
      sumElapsed c5_step 0 c5_step.retry_attempts +
          sumSleeps 0 c5_step.retry_attempts = 1012 :=
  ⟨(duration_cumulative_from_first_attempt c5_step OxiData.empty).1
      (fun _ => ⟨"x", rfl⟩), rfl⟩

/-- A step that can never abort the pipeline: it either carries
`continue_on_error` or succeeds on every input. -/
def neverAborts (st : PipelineStepModel) : Prop :=
  st.continue_on_error = true ∨
    ∀ input, ((execute_with_retries st input).1).success = true

/-- A pipeline of never-aborting steps starts every step. -/
theorem execSteps_allExecuted (steps : List PipelineStepModel) :
    ∀ d, (∀ st ∈ steps, neverAborts st) →
      (execSteps steps d).inputs.length = steps.length := by
  induction steps with
  | nil => intro d _; rfl
  | cons st rest ih =>
      intro d h
      cases hE : execute_with_retries st d with
      | mk sr att =>
          have hrest : ∀ x ∈ rest, neverAborts x :=
            fun x hx => h x (List.mem_cons_of_mem _ hx)
          by_cases hs : sr.success
          · simp [execSteps, hE, hs, ih _ hrest]
          · rcases h st (List.mem_cons_self st rest) with hc | hall
            · simp [execSteps, hE, hs, hc, ih _ hrest]
            · have := hall d
              rw [hE] at this
              exact absurd this hs

/-- Splitting a run at a prefix of steps that succeed on every input: the
executor reaches the suffix with some envelope and appends the suffix's
observations. -/
theorem execSteps_append_allSucceed (pre : List PipelineStepModel) :
    ∀ (d : OxiData) (rest : List PipelineStepModel),
      (∀ st ∈ pre, ∀ input, ((execute_with_retries st input).1).success = true) →
      ∃ d', (execSteps (pre ++ rest) d).inputs =
              (execSteps pre d).inputs ++ (execSteps rest d').inputs ∧
            (execSteps (pre ++ rest) d).result.steps_skipped =
              (execSteps rest d').result.steps_skipped ∧
            (execSteps pre d).inputs.length = pre.length := by
  induction pre with
  | nil => intro d rest _; exact ⟨d, by simp [execSteps], by simp, rfl⟩
  | cons st pre ih =>
      intro d rest h
      cases hE : execute_with_retries st d with
      | mk sr att =>
          have hs : sr.success = true := by
            have := h st (List.mem_cons_self st pre) d
            rwa [hE] at this
          have hpre : ∀ x ∈ pre, ∀ input,
              ((execute_with_retries x input).1).success = true :=
            fun x hx => h x (List.mem_cons_of_mem _ hx)
          obtain ⟨d', h1, h2, h3⟩ := ih (sr.data.getD d) rest hpre
          refine ⟨d', ?_, ?_, ?_⟩ <;>
            simp [execSteps, hE, hs, h1, h2, h3]

/-- Claim C4.  When a step whose attempts all fail is reached after a
prefix of steps that always succeed: with `continue_on_error = true` the
run continues with the envelope unchanged - the next step receives exactly
the envelope the failing step received - and (when no later step aborts)
every declared step is started; with `continue_on_error = false` the run
stops at the failing step, the later steps are never started, and
`steps_skipped` equals the number of steps declared after the failing
one. -/
theorem continue_on_error_policy (pre : List PipelineStepModel)
    (failStep : PipelineStepModel) (post : List PipelineStepModel)
    (d : OxiData)
    (hpre : ∀ st ∈ pre, ∀ input, ((execute_with_retries st input).1).success = true)
    (hfail : ∀ n input, ∃ msg, attemptResult failStep n input = .error msg) :
    (failStep.continue_on_error = true →
      (∀ st ∈ post, neverAborts st) →
      ∃ d', (execSteps (pre ++ failStep :: post) d).inputs =
              (execSteps pre d).inputs ++ d' :: (execSteps post d').inputs ∧
            (execSteps (pre ++ failStep :: post) d).inputs.length =
              pre.length + 1 + post.length) ∧
    (failStep.continue_on_error = false →
      ∃ d', (execSteps (pre ++ failStep :: post) d).result.steps_skipped =
              post.length ∧
            (execSteps (pre ++ failStep :: post) d).inputs =
              (execSteps pre d).inputs ++ [d'] ∧
            (execSteps (pre ++ failStep :: post) d).inputs.length =
              pre.length + 1) := by
  obtain ⟨d', hIn, hSkip, hLen⟩ :=
    execSteps_append_allSucceed pre d (failStep :: post) hpre
  have hFailD' := runAttempts_allFail failStep d' (fun n => hfail n d')
    failStep.retry_attempts 0 0
  constructor
  · intro hc hpost
    cases hE : execute_with_retries failStep d' with
    | mk sr att =>
        have hs : sr.success = false := by
          have := hFailD'.2.1
          rw [show runAttempts failStep d' 0 failStep.retry_attempts 0 =
            execute_with_retries failStep d' from rfl, hE] at this
          exact this
        have hcons : (execSteps (failStep :: post) d').inputs =
            d' :: (execSteps post d').inputs := by
          simp [execSteps, hE, hs, hc]
        refine ⟨d', by rw [hIn, hcons], ?_⟩
        rw [hIn, hcons]
        simp [hLen, execSteps_allExecuted post d' hpost]
        omega
  · intro hc
    cases hE : execute_with_retries failStep d' with
    | mk sr att =>
        have hs : sr.success = false := by
          have := hFailD'.2.1
          rw [show runAttempts failStep d' 0 failStep.retry_attempts 0 =
            execute_with_retries failStep d' from rfl, hE] at this
          exact this
        have habort : (execSteps (failStep :: post) d').inputs = [d'] ∧
            (execSteps (failStep :: post) d').result.steps_skipped =
              post.length := by
          constructor <;> simp [execSteps, hE, hs, hc]
        refine ⟨d', ?_, ?_, ?_⟩
        · rw [hSkip, habort.2]
        · rw [hIn, habort.1]
        · rw [hIn, habort.1]
          simp [hLen]

/-- The always-failing step of the C4 witness, with
`continue_on_error = true`. -/
def c4_fail_continue : PipelineStepModel :=
  { id := "failing", continue_on_error := true, retry_attempts := 0,
    timeout_seconds := none, rawExec := fun _ _ => .error "x",
    rawDuration := fun _ => 1 }

/-- The always-failing step of the C4 witness, with
`continue_on_error = false`. -/
def c4_fail_abort : PipelineStepModel :=
  { id := "failing", continue_on_error := false, retry_attempts := 0,
    timeout_seconds := none, rawExec := fun _ _ => .error "x",
    rawDuration := fun _ => 1 }

/-- The passthrough step of the C4 witness (spec scenario 5's step 2). -/
def c4_pass : PipelineStepModel :=
  { id := "pass", continue_on_error := false, retry_attempts := 0,
    timeout_seconds := none, rawExec := fun _ input => .ok input,
    rawDuration := fun _ => 1 }

/-- Witness for C4 at the concrete two-step declarations of spec
scenario 5. -/
theorem continue_on_error_policy_witness :
    (∃ d', (execSteps [c4_fail_continue, c4_pass] OxiData.empty).inputs =
            d' :: (execSteps [c4_pass] d').inputs ∧
          (execSteps [c4_fail_continue, c4_pass]
              OxiData.empty).inputs.length = 2) ∧
      (∃ d', (execSteps [c4_fail_abort, c4_pass]
                OxiData.empty).result.steps_skipped = 1 ∧
            (execSteps [c4_fail_abort, c4_pass] OxiData.empty).inputs = [d'] ∧
            (execSteps [c4_fail_abort, c4_pass]
                OxiData.empty).inputs.length = 1) :=
  ⟨(continue_on_error_policy [] c4_fail_continue [c4_pass] OxiData.empty
      (by simp) (fun _ _ => ⟨"x", rfl⟩)).1 rfl
      (fun st hst => by
        simp at hst
        subst hst
        exact Or.inr (fun input => rfl)),
    (continue_on_error_policy [] c4_fail_abort [c4_pass] OxiData.empty
      (by simp) (fun _ _ => ⟨"x", rfl⟩)).2 rfl⟩

/-! ## Claim C2: repair of a truncated state file -/

/-- The valid state held by the prior backup in the C2 scenario. -/
def c2_prior_state : PipelineState := PipelineState.new "p1" "r1" 0

/-- The C2 failing input: pipeline "p1" whose state file is truncated to
zero bytes, with one valid prior backup (taken at time 5). -/
def c2_fs : FileBackendFS :=
  { states := [("p1", .empty)], locks := [],
    backups := [("p1", [{ backup_id := "backup_prior", modified_at := 5,
                          contents := .good c2_prior_state }])],
    cache := [] }

/-- Claim C2, evaluation of the code at the failing input.
`validate_state` does report `corruption_detected = true` as claimed; but
`repair_state` (at time 10) first copies the corrupted zero-byte file into
the backup directory as its defensive backup, `list_backups` then returns
that copy as the newest backup, and `restore_state` on it fails to
deserialize - so repair returns `success = false,
manual_intervention_required = true` and a subsequent `load_state` still
fails, contradicting the claim.  Restoring the prior backup directly would
have succeeded, which is what the claim (and the function's stated purpose)
expects. -/
theorem repair_state_restores_own_corrupted_backup :
    ((c2_fs.validate_state "p1" 10).toOption.map
        ValidationResult.corruption_detected = some true) ∧
      ((c2_fs.repair_state "p1" 10 "backup_new" "backup_def" "rid").2.toOption.map
        (fun r => (r.success, r.manual_intervention_required)) =
          some (false, true)) ∧
      (((c2_fs.repair_state "p1" 10 "backup_new" "backup_def"
          "rid").1.load_state "p1").2 = .error .serializationError) ∧
      ((c2_fs.restore_state "p1" "backup_prior" 10 "backup_def2").2 =
        .ok ()) ∧
      (((c2_fs.restore_state "p1" "backup_prior" 10
          "backup_def2").1.load_state "p1").2 = .ok c2_prior_state) := by
  refine ⟨rfl, rfl, rfl, rfl, rfl⟩

end OxideFlow
